import Mathlib

/-!
Verification of the token safety-evaluation pipeline of src/main.py
(Solana trading bot).

The source is a Python program.  The shallow embedding below follows it
line by line:

* JSON numbers become rationals, so that the division in the
  volume/liquidity ratio rule is exact.
* A dict field that may be missing becomes an Option field; the Python
  idiom data.get(key, default) becomes Option.getD.
* The aiohttp request/response interaction of the two API clients is
  modelled by the HttpResult type: either an exception was raised before
  a body could be parsed (transport failure or timeout), or a response
  arrived carrying an HTTP status code and the outcome of parsing its
  body as JSON.  The try/except blocks of the source map every raised
  exception to the empty dict.
* The two fetch methods and the evaluator are pure functions
  parameterised by the network behaviour (a function from address to
  HttpResult), and is_token_safe additionally reports how many network
  fetches it issued.
-/

/-- Thresholds of the security section of config.yaml
(config[security][max_risk_score] and friends). -/
structure SecurityConfig where
  max_risk_score : ℚ
  min_liquidity_lock : ℚ
  min_distribution_score : ℚ
deriving DecidableEq

/-- Thresholds of the filters section of config.yaml. -/
structure FiltersConfig where
  min_liquidity : ℚ
  max_volume_ratio : ℚ
  buy_sell_ratio : ℚ
deriving DecidableEq

/-- The trading section of config.yaml (the two fields the policy-update
commands mutate). -/
structure TradingConfig where
  stop_loss : ℚ
  take_profit : ℚ
deriving DecidableEq

/-- The configuration dictionary loaded from config.yaml, restricted to the
sections the evaluator and the command handlers read. -/
structure Config where
  security : SecurityConfig
  filters : FiltersConfig
  trading : TradingConfig
deriving DecidableEq

/-- Contents of blacklist.yaml: the three denylist categories read by
SecurityAnalyzer._is_blacklisted. -/
structure Blacklist where
  tokens : List String
  developers : List String
  malicious_patterns : List String
deriving DecidableEq

/-- The JSON object returned by the risk-scoring service, as read by
_validate_rugcheck and _validate_contract_properties.  Every field may be
absent from the payload, hence the Option types. -/
structure RiskReport where
  riskScore : Option ℚ
  isMintable : Option Bool
  isFreezable : Option Bool
  liquidityLockScore : Option ℚ
  holdersDistributionScore : Option ℚ
  isProxy : Option Bool
  ownerBurn : Option Bool
  verified : Option Bool
deriving DecidableEq

/-- The JSON object returned by the market-data service, flattened along the
exact nested paths _validate_dexscreener reads: liquidity.usd, volume.h24,
txns.h24.buys, txns.h24.sells.  A missing key at any level of the path makes
the corresponding field none. -/
structure MarketReport where
  liquidityUsd : Option ℚ
  volume24hUsd : Option ℚ
  buys24h : Option ℚ
  sells24h : Option ℚ
deriving DecidableEq

/-- The empty dict as a RiskReport: every lookup misses. -/
def emptyRiskReport : RiskReport :=
  { riskScore := none, isMintable := none, isFreezable := none,
    liquidityLockScore := none, holdersDistributionScore := none,
    isProxy := none, ownerBurn := none, verified := none }

/-- The empty dict as a MarketReport: every lookup misses. -/
def emptyMarketReport : MarketReport :=
  { liquidityUsd := none, volume24hUsd := none, buys24h := none, sells24h := none }

/-- Outcome of one aiohttp GET as observed inside the try block of a fetch
method: either an exception was raised before a body could be parsed
(connection error or timeout), or a response arrived with an HTTP status
code and the result of parsing its body as JSON (the parse itself raises on
a malformed or non-JSON body, which the error branch records). -/
inductive HttpResult (α : Type) where
  | failure (err : String)
  | response (status : Nat) (body : Except String α)

/-- Embedding of DexScreenerAPI.get_pair_details (src/main.py lines 36-47):
any exception inside the try block - transport failure, timeout, or a body
that does not parse as JSON - is caught and mapped to the empty dict; a
parsed body is returned unchanged.  The HTTP status code is never
inspected (the source does not read response.status and does not enable
raise_for_status), so it plays no role in the result. -/
def get_pair_details (r : HttpResult MarketReport) : MarketReport :=
  match r with
  | HttpResult.failure _ => emptyMarketReport
  | HttpResult.response _ (Except.error _) => emptyMarketReport
  | HttpResult.response _ (Except.ok d) => d

/-- Embedding of RugCheckAPI.get_token_score (src/main.py lines 57-68), with
the same exception handling as get_pair_details. -/
def get_token_score (r : HttpResult RiskReport) : RiskReport :=
  match r with
  | HttpResult.failure _ => emptyRiskReport
  | HttpResult.response _ (Except.error _) => emptyRiskReport
  | HttpResult.response _ (Except.ok d) => d

/-- Embedding of SecurityAnalyzer._is_blacklisted (src/main.py lines 98-104).
The helper methods _get_associated_devs and _detect_patterns are called
there but are defined nowhere in the source; following the spec (sections
4.1 and 9) they are modelled as pluggable lookup capabilities passed in as
parameters, expected to return the empty list when no data is available. -/
def is_blacklisted (bl : Blacklist)
    (getAssociatedDevs detectPatterns : String → List String)
    (address : String) : Bool :=
  bl.tokens.contains address ||
  (getAssociatedDevs address).any (fun dev => bl.developers.contains dev) ||
  (detectPatterns address).any (fun pat => bl.malicious_patterns.contains pat)

/-- Embedding of SecurityAnalyzer._validate_rugcheck (src/main.py lines
106-114).  Each data.get(key, default) becomes Option.getD with the same
default. -/
def validate_rugcheck (cfg : Config) (data : RiskReport) : Bool :=
  decide (data.riskScore.getD 100 < cfg.security.max_risk_score) &&
  !(data.isMintable.getD true) &&
  !(data.isFreezable.getD true) &&
  decide (data.liquidityLockScore.getD 0 > cfg.security.min_liquidity_lock) &&
  decide (data.holdersDistributionScore.getD 0 > cfg.security.min_distribution_score)

/-- Embedding of SecurityAnalyzer._validate_dexscreener (src/main.py lines
116-125), including the explicit division-by-zero guard
(volume / liquidity if liquidity > 0 else 0). -/
def validate_dexscreener (cfg : Config) (data : MarketReport) : Bool :=
  let liquidity := data.liquidityUsd.getD 0
  let volume := data.volume24hUsd.getD 0
  decide (liquidity > cfg.filters.min_liquidity) &&
  decide ((if liquidity > 0 then volume / liquidity else 0) < cfg.filters.max_volume_ratio) &&
  decide (data.buys24h.getD 0 > data.sells24h.getD 0 * cfg.filters.buy_sell_ratio)

/-- Embedding of SecurityAnalyzer._validate_contract_properties (src/main.py
lines 127-133). -/
def validate_contract_properties (data : RiskReport) : Bool :=
  !(data.isProxy.getD false) &&
  data.ownerBurn.getD false &&
  data.verified.getD false

/-- The first conjunct of _validate_dexscreener in isolation:
liquidity > config[filters][min_liquidity]. -/
def rule_min_liquidity (cfg : Config) (data : MarketReport) : Bool :=
  decide (data.liquidityUsd.getD 0 > cfg.filters.min_liquidity)

/-- The second conjunct of _validate_dexscreener in isolation: the guarded
volume/liquidity ratio compared against config[filters][max_volume_ratio]. -/
def rule_volume_ratio (cfg : Config) (data : MarketReport) : Bool :=
  let liquidity := data.liquidityUsd.getD 0
  let volume := data.volume24hUsd.getD 0
  decide ((if liquidity > 0 then volume / liquidity else 0) < cfg.filters.max_volume_ratio)

/-- The third conjunct of _validate_dexscreener in isolation:
buys > sells * config[filters][buy_sell_ratio]. -/
def rule_buy_pressure (cfg : Config) (data : MarketReport) : Bool :=
  decide (data.buys24h.getD 0 > data.sells24h.getD 0 * cfg.filters.buy_sell_ratio)

/-- The first conjunct of _validate_contract_properties in isolation:
not data.get(isProxy, False). -/
def rule_not_proxy (data : RiskReport) : Bool :=
  !(data.isProxy.getD false)

/-- The second conjunct of _validate_contract_properties in isolation:
data.get(ownerBurn, False). -/
def rule_owner_burn (data : RiskReport) : Bool :=
  data.ownerBurn.getD false

/-- The third conjunct of _validate_contract_properties in isolation:
data.get(verified, False). -/
def rule_verified (data : RiskReport) : Bool :=
  data.verified.getD false

/-- Embedding of SecurityAnalyzer.is_token_safe (src/main.py lines 81-96).
The network behaviour of the two services is passed in as functions from
address to HttpResult; the fetch methods get_token_score and
get_pair_details are applied to their outcomes exactly as the source does.
The second component of the result counts the network fetches the call
issued (0 when the blacklist check short-circuits, 2 otherwise), so that
the no-network-calls property is expressible. -/
def is_token_safe (cfg : Config) (bl : Blacklist)
    (getAssociatedDevs detectPatterns : String → List String)
    (rugHttp : String → HttpResult RiskReport)
    (dexHttp : String → HttpResult MarketReport)
    (pair_address : String) : Bool × Nat :=
  if is_blacklisted bl getAssociatedDevs detectPatterns pair_address then
    (false, 0)
  else
    let rugcheck_data := get_token_score (rugHttp pair_address)
    let dex_data := get_pair_details (dexHttp pair_address)
    (validate_rugcheck cfg rugcheck_data &&
      validate_dexscreener cfg dex_data &&
      validate_contract_properties rugcheck_data, 2)

/-- Parses a nonempty all-digit character list as a natural number. -/
def parseDigits (cs : List Char) : Option Nat :=
  if cs.isEmpty then none
  else if cs.all Char.isDigit then
    some (cs.foldl (fun n c => 10 * n + (c.toNat - 48)) 0)
  else none

/-- Modelled from the spec: the two policy-update handlers parse their
argument with the Python builtin float, which is library code not part of
this repository.  It is modelled here for plain decimal literals - an
optional sign, integer digits, an optional fractional part - read exactly
as a rational; every other input is a parse failure (the ValueError branch),
returned as none. -/
def pyFloat (s : String) : Option ℚ :=
  let signed : Bool × List Char :=
    match s.data with
    | '-' :: rest => (true, rest)
    | '+' :: rest => (false, rest)
    | cs => (false, cs)
  let mag : Option ℚ :=
    match signed.2.splitOn '.' with
    | [ip] => (parseDigits ip).map (fun n => (n : ℚ))
    | [ip, fp] =>
      if ip.isEmpty && fp.isEmpty then none
      else
        match (if ip.isEmpty then some 0 else parseDigits ip),
              (if fp.isEmpty then some 0 else parseDigits fp) with
        | some i, some f => some ((i : ℚ) + (f : ℚ) / ((10 : ℚ) ^ fp.length))
        | _, _ => none
    | _ => none
  mag.map (fun m => if signed.1 then -m else m)

/-- Embedding of TradingBot._cmd_stop_loss (src/main.py lines 213-226),
restricted to its effect on the configuration: parse the argument, raise
ValueError unless -100 < value < 0, and only then write
config[trading][stop_loss].  The Bool reports whether the update was
accepted (the success reply) or rejected (the except branch reply); in the
rejected case the configuration is returned untouched. -/
def cmd_stop_loss (cfg : Config) (arg : String) : Config × Bool :=
  match pyFloat arg with
  | none => (cfg, false)
  | some v =>
    if -100 < v ∧ v < 0 then
      ({ cfg with trading := { cfg.trading with stop_loss := v } }, true)
    else (cfg, false)

/-- Embedding of TradingBot._cmd_take_profit (src/main.py lines 228-241),
with the validation interval 0 < value < 1000 and target field
config[trading][take_profit]. -/
def cmd_take_profit (cfg : Config) (arg : String) : Config × Bool :=
  match pyFloat arg with
  | none => (cfg, false)
  | some v =>
    if 0 < v ∧ v < 1000 then
      ({ cfg with trading := { cfg.trading with take_profit := v } }, true)
    else (cfg, false)

/-- Sample thresholds: the Policy of test scenario 2 of the spec. -/
def cfg0 : Config :=
  { security := { max_risk_score := 50, min_liquidity_lock := 50, min_distribution_score := 50 },
    filters := { min_liquidity := 10000, max_volume_ratio := 1, buy_sell_ratio := 1 },
    trading := { stop_loss := -10, take_profit := 50 } }

/-- A blacklist with no entries at all. -/
def emptyBlacklist : Blacklist :=
  { tokens := [], developers := [], malicious_patterns := [] }

/-- A blacklist whose token denylist holds the single address 0xbad. -/
def bl0 : Blacklist :=
  { tokens := ["0xbad"], developers := [], malicious_patterns := [] }

/-- A fully healthy RiskReport: the one of test scenario 2 of the spec. -/
def rug0 : RiskReport :=
  { riskScore := some 10, isMintable := some false, isFreezable := some false,
    liquidityLockScore := some 80, holdersDistributionScore := some 80,
    isProxy := some false, ownerBurn := some true, verified := some true }

/-- A fully healthy MarketReport: the one of test scenario 2 of the spec. -/
def dex0 : MarketReport :=
  { liquidityUsd := some 50000, volume24hUsd := some 10000,
    buys24h := some 120, sells24h := some 80 }

/-- rug0 with the isProxy key removed from the payload. -/
def rugProxyAbsent : RiskReport :=
  { rug0 with isProxy := none }

/-- A lookup capability that finds nothing for any address. -/
def noFindings : String → List String := fun _ => []

/-- Network behaviour in which the risk service answers 200 with rug0. -/
def rugOkF : String → HttpResult RiskReport :=
  fun _ => HttpResult.response 200 (Except.ok rug0)

/-- Network behaviour in which the market service answers 200 with dex0. -/
def dexOkF : String → HttpResult MarketReport :=
  fun _ => HttpResult.response 200 (Except.ok dex0)

/-- Network behaviour in which the market service times out. -/
def dexTimeoutF : String → HttpResult MarketReport :=
  fun _ => HttpResult.failure "timeout"

/-- C1: for every address in the blacklisted-token set, is_token_safe rejects
(returns false) and issues zero network fetches, and the verdict is
independent of the behaviour of the two network services. -/
theorem C1_blacklist_rejects_without_fetch
    (cfg : Config) (bl : Blacklist) (gd dp : String → List String)
    (rh rh' : String → HttpResult RiskReport)
    (dh dh' : String → HttpResult MarketReport)
    (addr : String) (h : bl.tokens.contains addr = true) :
    is_token_safe cfg bl gd dp rh dh addr = (false, 0) ∧
    is_token_safe cfg bl gd dp rh dh addr = is_token_safe cfg bl gd dp rh' dh' addr := by
  have hm : addr ∈ bl.tokens := by simpa using h
  have hb : is_blacklisted bl gd dp addr = true := by
    simp [is_blacklisted]
    exact Or.inl (Or.inl hm)
  refine ⟨?_, ?_⟩ <;> simp [is_token_safe, hb]

/-- Concrete instance of C1: the address 0xbad sits in the token denylist of
bl0, and evaluation rejects with zero fetches. -/
theorem C1_blacklist_rejects_without_fetch_witness :
    is_token_safe cfg0 bl0 noFindings noFindings rugOkF dexOkF "0xbad" = (false, 0) :=
  (C1_blacklist_rejects_without_fetch cfg0 bl0 noFindings noFindings rugOkF rugOkF
    dexOkF dexOkF "0xbad" (by decide)).1

/-- C2: for every non-blacklisted address and every policy, when the
market-data fetch yields the absent (empty) MarketReport, is_token_safe
rejects, and the empty report makes rule group B (validate_dexscreener)
evaluate to false under every configuration. -/
theorem C2_absent_market_report_rejects
    (cfg : Config) (bl : Blacklist) (gd dp : String → List String)
    (rh : String → HttpResult RiskReport) (dh : String → HttpResult MarketReport)
    (addr : String)
    (hnb : is_blacklisted bl gd dp addr = false)
    (habs : get_pair_details (dh addr) = emptyMarketReport) :
    (is_token_safe cfg bl gd dp rh dh addr).1 = false ∧
    ∀ cfg2 : Config, validate_dexscreener cfg2 emptyMarketReport = false := by
  have hB : ∀ cfg2 : Config, validate_dexscreener cfg2 emptyMarketReport = false := by
    intro cfg2
    simp [validate_dexscreener, emptyMarketReport]
  refine ⟨?_, hB⟩
  simp [is_token_safe, hnb, habs, hB cfg]

/-- Concrete instance of C2: with an empty blacklist and a timed-out market
fetch, the healthy risk report cannot rescue the token. -/
theorem C2_absent_market_report_rejects_witness :
    (is_token_safe cfg0 emptyBlacklist noFindings noFindings rugOkF dexTimeoutF "PAIR").1 = false :=
  (C2_absent_market_report_rejects cfg0 emptyBlacklist noFindings noFindings rugOkF
    dexTimeoutF "PAIR" (by decide) rfl).1

/-- C3: for each field of rule group A, a RiskReport with that field absent
gets exactly the verdict of the same report with the field set to its
fail-closed default: riskScore 100, isMintable true, isFreezable true,
liquidityLockScore 0, holdersDistributionScore 0.  In particular an absent
group-A field can never turn a rejection into an acceptance. -/
theorem C3_group_A_missing_field_defaults (cfg : Config) (d : RiskReport) :
    validate_rugcheck cfg { d with riskScore := none } =
      validate_rugcheck cfg { d with riskScore := some 100 } ∧
    validate_rugcheck cfg { d with isMintable := none } =
      validate_rugcheck cfg { d with isMintable := some true } ∧
    validate_rugcheck cfg { d with isFreezable := none } =
      validate_rugcheck cfg { d with isFreezable := some true } ∧
    validate_rugcheck cfg { d with liquidityLockScore := none } =
      validate_rugcheck cfg { d with liquidityLockScore := some 0 } ∧
    validate_rugcheck cfg { d with holdersDistributionScore := none } =
      validate_rugcheck cfg { d with holdersDistributionScore := some 0 } :=
  ⟨rfl, rfl, rfl, rfl, rfl⟩

/-- C4 counterexample: a concrete evaluation in which the RiskReport carries
no isProxy field and yet the token is admitted.  The missing-key default in
not data.get(isProxy, False) is False, so the not-a-proxy rule passes for an
absent isProxy instead of failing as the claim states. -/
theorem C4_counterexample :
    rugProxyAbsent.isProxy = none ∧
    validate_contract_properties rugProxyAbsent = true ∧
    (is_token_safe cfg0 emptyBlacklist noFindings noFindings
      (fun _ => HttpResult.response 200 (Except.ok rugProxyAbsent)) dexOkF "PAIR").1 = true := by
  refine ⟨rfl, rfl, ?_⟩
  norm_num [is_token_safe, is_blacklisted, validate_rugcheck, validate_dexscreener,
    validate_contract_properties, get_token_score, get_pair_details,
    cfg0, rug0, rugProxyAbsent, dex0, emptyBlacklist, noFindings, dexOkF]

/-- C4 (amended): in rule group C an absent field behaves exactly as the
default value false of its dict lookup; for ownerBurn and verified this is
fail-closed (the rule fails on an absent field), but for isProxy the default
false makes not data.get(isProxy, False) evaluate to true, so the
not-a-proxy rule passes when isProxy is absent rather than failing. -/
theorem C4_group_C_missing_field_behaviour (d : RiskReport) :
    rule_not_proxy { d with isProxy := none } = true ∧
    validate_contract_properties { d with isProxy := none } =
      validate_contract_properties { d with isProxy := some false } ∧
    rule_owner_burn { d with ownerBurn := none } = false ∧
    validate_contract_properties { d with ownerBurn := none } =
      validate_contract_properties { d with ownerBurn := some false } ∧
    rule_verified { d with verified := none } = false ∧
    validate_contract_properties { d with verified := none } =
      validate_contract_properties { d with verified := some false } :=
  ⟨rfl, rfl, rfl, rfl, rfl, rfl⟩

/-- C5: for every non-blacklisted address the admission verdict is exactly
the conjunction of the three group verdicts applied to the fetched reports,
and each group verdict is exactly the conjunction of its individual rules;
any single failing rule therefore yields rejection. -/
theorem C5_admission_is_conjunction_of_rule_groups
    (cfg : Config) (bl : Blacklist) (gd dp : String → List String)
    (rh : String → HttpResult RiskReport) (dh : String → HttpResult MarketReport)
    (addr : String)
    (hnb : is_blacklisted bl gd dp addr = false) :
    ((is_token_safe cfg bl gd dp rh dh addr).1 = true ↔
      (validate_rugcheck cfg (get_token_score (rh addr)) = true ∧
       validate_dexscreener cfg (get_pair_details (dh addr)) = true ∧
       validate_contract_properties (get_token_score (rh addr)) = true)) ∧
    (∀ d : RiskReport, validate_rugcheck cfg d = true ↔
      (d.riskScore.getD 100 < cfg.security.max_risk_score ∧
       d.isMintable.getD true = false ∧
       d.isFreezable.getD true = false ∧
       d.liquidityLockScore.getD 0 > cfg.security.min_liquidity_lock ∧
       d.holdersDistributionScore.getD 0 > cfg.security.min_distribution_score)) ∧
    (∀ m : MarketReport, validate_dexscreener cfg m = true ↔
      (m.liquidityUsd.getD 0 > cfg.filters.min_liquidity ∧
       (if m.liquidityUsd.getD 0 > 0 then m.volume24hUsd.getD 0 / m.liquidityUsd.getD 0 else 0) <
         cfg.filters.max_volume_ratio ∧
       m.buys24h.getD 0 > m.sells24h.getD 0 * cfg.filters.buy_sell_ratio)) ∧
    (∀ d : RiskReport, validate_contract_properties d = true ↔
      (d.isProxy.getD false = false ∧ d.ownerBurn.getD false = true ∧
       d.verified.getD false = true)) := by
  refine ⟨?_, ?_, ?_, ?_⟩
  · simp [is_token_safe, hnb, Bool.and_eq_true, and_assoc]
  · intro d
    simp [validate_rugcheck, Bool.and_eq_true, Bool.not_eq_true', decide_eq_true_eq, and_assoc]
  · intro m
    simp [validate_dexscreener, Bool.and_eq_true, decide_eq_true_eq, and_assoc]
  · intro d
    simp [validate_contract_properties, Bool.and_eq_true, Bool.not_eq_true', and_assoc]

/-- Concrete instance of C5: on the healthy scenario the three groups all
pass and the token is admitted. -/
theorem C5_admission_is_conjunction_of_rule_groups_witness :
    (is_token_safe cfg0 emptyBlacklist noFindings noFindings rugOkF dexOkF "PAIR").1 = true :=
  ((C5_admission_is_conjunction_of_rule_groups cfg0 emptyBlacklist noFindings noFindings
      rugOkF dexOkF "PAIR" (by decide)).1).mpr
    ⟨by norm_num [validate_rugcheck, get_token_score, rugOkF, rug0, cfg0],
     by norm_num [validate_dexscreener, get_pair_details, dexOkF, dex0, cfg0],
     by norm_num [validate_contract_properties, get_token_score, rugOkF, rug0]⟩

/-- C6: each strict-inequality rule rejects when the corresponding report
value equals its configured threshold exactly, for the risk-score,
liquidity-lock, holder-distribution, minimum-liquidity, volume-ratio and
buy-pressure rules. -/
theorem C6_boundary_values_reject (cfg : Config) :
    (∀ d : RiskReport, d.riskScore.getD 100 = cfg.security.max_risk_score →
      validate_rugcheck cfg d = false) ∧
    (∀ d : RiskReport, d.liquidityLockScore.getD 0 = cfg.security.min_liquidity_lock →
      validate_rugcheck cfg d = false) ∧
    (∀ d : RiskReport, d.holdersDistributionScore.getD 0 = cfg.security.min_distribution_score →
      validate_rugcheck cfg d = false) ∧
    (∀ m : MarketReport, m.liquidityUsd.getD 0 = cfg.filters.min_liquidity →
      validate_dexscreener cfg m = false) ∧
    (∀ m : MarketReport,
      (if m.liquidityUsd.getD 0 > 0 then m.volume24hUsd.getD 0 / m.liquidityUsd.getD 0 else 0) =
        cfg.filters.max_volume_ratio →
      validate_dexscreener cfg m = false) ∧
    (∀ m : MarketReport, m.buys24h.getD 0 = m.sells24h.getD 0 * cfg.filters.buy_sell_ratio →
      validate_dexscreener cfg m = false) := by
  refine ⟨?_, ?_, ?_, ?_, ?_, ?_⟩ <;> intro x h <;>
    simp [validate_rugcheck, validate_dexscreener, h, lt_irrefl]

/-- Concrete instances of C6: one boundary-valued report per rule, each
rejected under the scenario-2 thresholds. -/
theorem C6_boundary_values_reject_witness :
    validate_rugcheck cfg0 { emptyRiskReport with riskScore := some 50 } = false ∧
    validate_rugcheck cfg0 { emptyRiskReport with liquidityLockScore := some 50 } = false ∧
    validate_rugcheck cfg0 { emptyRiskReport with holdersDistributionScore := some 50 } = false ∧
    validate_dexscreener cfg0 { emptyMarketReport with liquidityUsd := some 10000 } = false ∧
    validate_dexscreener cfg0
      { emptyMarketReport with liquidityUsd := some 50000, volume24hUsd := some 50000 } = false ∧
    validate_dexscreener cfg0
      { emptyMarketReport with buys24h := some 80, sells24h := some 80 } = false :=
  ⟨(C6_boundary_values_reject cfg0).1 _ rfl,
   (C6_boundary_values_reject cfg0).2.1 _ rfl,
   (C6_boundary_values_reject cfg0).2.2.1 _ rfl,
   (C6_boundary_values_reject cfg0).2.2.2.1 _ rfl,
   (C6_boundary_values_reject cfg0).2.2.2.2.1 _ (by norm_num [cfg0]),
   (C6_boundary_values_reject cfg0).2.2.2.2.2 _ (by norm_num [cfg0])⟩

/-- C7: when liquidityUsd is zero the guarded expression evaluates to 0 -
no division is attempted, the evaluation is total - and the volume-ratio
rule then passes exactly when maxVolumeRatio is positive; the rule is the
second of the three conjuncts of rule group B. -/
theorem C7_zero_liquidity_ratio_guard (cfg : Config) (m : MarketReport)
    (h : m.liquidityUsd.getD 0 = 0) :
    (if m.liquidityUsd.getD 0 > 0 then m.volume24hUsd.getD 0 / m.liquidityUsd.getD 0 else 0)
      = 0 ∧
    (rule_volume_ratio cfg m = true ↔ 0 < cfg.filters.max_volume_ratio) ∧
    validate_dexscreener cfg m =
      (rule_min_liquidity cfg m && rule_volume_ratio cfg m && rule_buy_pressure cfg m) := by
  refine ⟨?_, ?_, rfl⟩
  · simp [h]
  · simp [rule_volume_ratio, h]

/-- Concrete instance of C7: zero liquidity with positive volume, under a
positive maxVolumeRatio, makes the ratio rule pass without any division. -/
theorem C7_zero_liquidity_ratio_guard_witness :
    rule_volume_ratio cfg0 { emptyMarketReport with volume24hUsd := some 10000 } = true :=
  ((C7_zero_liquidity_ratio_guard cfg0
      { emptyMarketReport with volume24hUsd := some 10000 } rfl).2.1).mpr (by norm_num [cfg0])

/-- C8 counterexample: a non-2xx outcome does not yield the empty report: a
404 response whose body parses as JSON is returned as is, because the fetch
never inspects response.status (raise_for_status is not enabled). -/
theorem C8_counterexample :
    get_pair_details (HttpResult.response 404 (Except.ok dex0)) = dex0 ∧
    dex0 ≠ emptyMarketReport := by
  refine ⟨rfl, ?_⟩
  decide

/-- C8 (amended): each fetch operation is a total function - every HTTP
outcome yields a report, never a propagated exception - and every exception
raised inside the try block (transport failure, timeout, or a body that
fails to parse) yields the empty report, while a response whose body parses
is returned unchanged whatever its status code. -/
theorem C8_fetch_never_propagates_errors :
    (∀ e : String, get_pair_details (HttpResult.failure e) = emptyMarketReport) ∧
    (∀ (s : Nat) (e : String),
      get_pair_details (HttpResult.response s (Except.error e)) = emptyMarketReport) ∧
    (∀ (s : Nat) (d : MarketReport),
      get_pair_details (HttpResult.response s (Except.ok d)) = d) ∧
    (∀ e : String, get_token_score (HttpResult.failure e) = emptyRiskReport) ∧
    (∀ (s : Nat) (e : String),
      get_token_score (HttpResult.response s (Except.error e)) = emptyRiskReport) ∧
    (∀ (s : Nat) (d : RiskReport),
      get_token_score (HttpResult.response s (Except.ok d)) = d) :=
  ⟨fun _ => rfl, fun _ _ => rfl, fun _ _ => rfl,
   fun _ => rfl, fun _ _ => rfl, fun _ _ => rfl⟩

/-- C9: a stop-loss update is applied exactly when the parsed value lies in
the open interval (-100, 0), a take-profit update exactly when it lies in
(0, 1000); on any out-of-range or unparseable input the handler reports an
error and leaves the configuration untouched; the input -50 sets stop_loss
to -50 and the input 0 is rejected with the configuration unchanged. -/
theorem C9_policy_update_validation (cfg : Config) (arg : String) :
    ((cmd_stop_loss cfg arg).2 = true ↔
      ∃ v : ℚ, pyFloat arg = some v ∧ -100 < v ∧ v < 0) ∧
    ((cmd_stop_loss cfg arg).2 = false → (cmd_stop_loss cfg arg).1 = cfg) ∧
    ((cmd_take_profit cfg arg).2 = true ↔
      ∃ v : ℚ, pyFloat arg = some v ∧ 0 < v ∧ v < 1000) ∧
    ((cmd_take_profit cfg arg).2 = false → (cmd_take_profit cfg arg).1 = cfg) ∧
    cmd_stop_loss cfg "-50" =
      ({ cfg with trading := { cfg.trading with stop_loss := -50 } }, true) ∧
    cmd_stop_loss cfg "0" = (cfg, false) := by
  have h50 : pyFloat "-50" = some (-50) := by decide
  have h0 : pyFloat "0" = some 0 := by decide
  refine ⟨?_, ?_, ?_, ?_, ?_, ?_⟩
  · rcases hp : pyFloat arg with _ | v
    · simp [cmd_stop_loss, hp]
    · by_cases hr : -100 < v ∧ v < 0 <;> simp [cmd_stop_loss, hp, hr]
  · rcases hp : pyFloat arg with _ | v
    · simp [cmd_stop_loss, hp]
    · by_cases hr : -100 < v ∧ v < 0 <;> simp [cmd_stop_loss, hp, hr]
  · rcases hp : pyFloat arg with _ | v
    · simp [cmd_take_profit, hp]
    · by_cases hr : 0 < v ∧ v < 1000 <;> simp [cmd_take_profit, hp, hr]
  · rcases hp : pyFloat arg with _ | v
    · simp [cmd_take_profit, hp]
    · by_cases hr : 0 < v ∧ v < 1000 <;> simp [cmd_take_profit, hp, hr]
  · norm_num [cmd_stop_loss, h50]
  · norm_num [cmd_stop_loss, h0]

/-- Concrete instances of C9: a non-numeric stop-loss input and a
boundary-violating take-profit input both leave the configuration
unchanged. -/
theorem C9_policy_update_validation_witness :
    (cmd_stop_loss cfg0 "abc").1 = cfg0 ∧ (cmd_take_profit cfg0 "0").1 = cfg0 :=
  ⟨(C9_policy_update_validation cfg0 "abc").2.1 (by decide),
   (C9_policy_update_validation cfg0 "0").2.2.2.1 (by decide)⟩

/-- C10: whenever sells24h is zero and buys24h is positive, the buy-pressure
rule of group B passes for every configured buySellRatio - the threshold has
no effect - and the rule is the third of the three conjuncts of rule
group B. -/
theorem C10_zero_sells_trivial_buy_pressure (cfg : Config) (m : MarketReport)
    (h0 : m.sells24h.getD 0 = 0) (h1 : 0 < m.buys24h.getD 0) :
    rule_buy_pressure cfg m = true ∧
    validate_dexscreener cfg m =
      (rule_min_liquidity cfg m && rule_volume_ratio cfg m && rule_buy_pressure cfg m) := by
  refine ⟨?_, rfl⟩
  simp [rule_buy_pressure, h0, h1]

/-- Concrete instance of C10: five buys, zero sells, threshold 1. -/
theorem C10_zero_sells_trivial_buy_pressure_witness :
    rule_buy_pressure cfg0 { emptyMarketReport with buys24h := some 5 } = true :=
  (C10_zero_sells_trivial_buy_pressure cfg0 { emptyMarketReport with buys24h := some 5 }
    rfl (by norm_num [emptyMarketReport])).1
